import Mathlib

/-!
Shallow embedding of the `htttp-server` static-file / mock-API server
(`src/index.ts`, `src/constants.ts`, `src/types.ts`) and proofs about its
request dispatch and response pipeline.

Conventions of the embedding:
* JavaScript values flowing through the mock API are modelled by the
  inductive `Json`; objects are ordered field lists (JS insertion order).
* `JSON.parse` is an external platform collaborator: the definitions take a
  parameter `p : String → Option Json`, where `none` models a parse throw.
* `uuid.v4()` is an external collaborator: each body-handling call receives
  the generated identifier as a `String` argument.
* Node's `http.ServerResponse` is modelled by `Res`; once `end()` has run the
  response is frozen on the wire, so later `statusCode` assignments and
  `end()` calls have no client-visible effect, while `setHeader` throws
  `ERR_HTTP_HEADERS_SENT` (modelled where it occurs).
* The filesystem is a parameter `fs : String → Option FsNode`.
-/

/-- JSON-like values held by the Resource Store (`ResourceItem` and friends). -/
inductive Json where
  | null : Json
  | bool : Bool → Json
  | num : Int → Json
  | str : String → Json
  | arr : List Json → Json
  | obj : List (String × Json) → Json

mutual

/-- JavaScript `JSON.stringify`, restricted to strings that need no escapes
(all strings appearing in this development). Object fields keep list order. -/
def Json.stringify : Json → String
  | .null => "null"
  | .bool true => "true"
  | .bool false => "false"
  | .num n => toString n
  | .str s => "\"" ++ s ++ "\""
  | .arr l => "[" ++ stringifyArr l ++ "]"
  | .obj l => "\x7b" ++ stringifyObj l ++ "\x7d"

/-- Comma-separated `JSON.stringify` of array elements. -/
def stringifyArr : List Json → String
  | [] => ""
  | [j] => Json.stringify j
  | j :: rest => Json.stringify j ++ "," ++ stringifyArr rest

/-- Comma-separated `"key":value` rendering of object fields. -/
def stringifyObj : List (String × Json) → String
  | [] => ""
  | [(k, v)] => "\"" ++ k ++ "\":" ++ Json.stringify v
  | (k, v) :: rest => "\"" ++ k ++ "\":" ++ Json.stringify v ++ "," ++ stringifyObj rest

end

/-- JavaScript property lookup on an ordered field list (first match). -/
def lookupField (l : List (String × Json)) (k : String) : Option Json :=
  (l.find? (fun p => p.1 = k)).map (fun p => p.2)

/-- JavaScript member access `v.k`: `none` models `undefined`. -/
def Json.get? (j : Json) (k : String) : Option Json :=
  match j with
  | .obj l => lookupField l k
  | _ => none

/-- JavaScript object-spread `{...v}` as a field list: objects spread their
fields, arrays spread index/value pairs, strings spread index/character
pairs, primitives spread to nothing. -/
def spreadFields : Json → List (String × Json)
  | .obj l => l
  | .arr l => l.enum.map (fun p => (toString p.1, p.2))
  | .str s => s.toList.enum.map (fun p => (toString p.1, Json.str (String.singleton p.2)))
  | _ => []

/-- JavaScript object literal `{...a, ...b}` on field lists: keys of `a` keep
their position (values overridden by `b` where present), keys of `b` new to
`a` are appended in order. -/
def mergeFields (a b : List (String × Json)) : List (String × Json) :=
  a.map (fun p =>
    match b.find? (fun q => q.1 = p.1) with
    | some q => (p.1, q.2)
    | none => p)
  ++ b.filter (fun q => (a.find? (fun p => p.1 = q.1)).isNone)

/-- JavaScript strict equality `v === s` between a possibly-`undefined`
member value and a string: true only when `v` is a string with the same
text. In particular a numeric `id` is never `===` a URL path segment. -/
def jsStrictEqStr (v : Option Json) (s : String) : Bool :=
  match v with
  | some (.str t) => t = s
  | _ => false

/-- Model of Node's `http.ServerResponse` as seen by the client. `ended`
records that `end()` has run (status line, headers and body are on the
wire); `pipeStarted` records that `createReadStream(file).pipe(res)` was
initiated for this response. -/
structure Res where
  statusCode : Nat := 200
  headers : List (String × String) := []
  body : String := ""
  ended : Bool := false
  pipeStarted : Bool := false
deriving DecidableEq, Repr

/-- The value of a response header (latest `setHeader` wins). -/
def Res.header? (r : Res) (n : String) : Option String :=
  (r.headers.find? (fun p => p.1 = n)).map (fun p => p.2)

/-- `res.setHeader(n, v)` on a response whose headers are not yet sent. -/
def Res.setHeader (r : Res) (n v : String) : Res :=
  { r with headers := (n, v) :: r.headers }

/-- `res.statusCode = c`; after `end()` the status line is already on the
wire, so the assignment has no client-visible effect. -/
def Res.setStatus (r : Res) (c : Nat) : Res :=
  if r.ended then r else { r with statusCode := c }

/-- `res.end(b)`; a second `end` emits a stream error and sends nothing. -/
def Res.endWith (r : Res) (b : String) : Res :=
  if r.ended then r else { r with body := b, ended := true }

/-- `res.end()` with no argument. -/
def Res.endEmpty (r : Res) : Res :=
  r.endWith ""

/-- The Resource Store: `this.data`, a mapping from collection name to the
ordered list of resource items (`{ [k: string]: ResourceItem[] }`). -/
abbrev Data := List (String × List Json)

/-- JavaScript property read `this.data[resourceName]` (first binding wins,
as object keys are unique). -/
def Data.findColl : Data → String → Option (List Json)
  | [], _ => none
  | (k, v) :: t, n => if k = n then some v else Data.findColl t n

/-- Replacing the (aliased, mutated in place) item list of a collection. -/
def Data.setColl : Data → String → List Json → Data
  | [], _, _ => []
  | (k, v) :: t, n, ys =>
      if k = n then (k, ys) :: Data.setColl t n ys else (k, v) :: Data.setColl t n ys

/-- `DEFAULT_DATA` from `constants.ts`: the built-in seed collection. The
seeded `id` fields are JSON numbers `1` and `2`. -/
def DEFAULT_DATA : Data :=
  [("users",
    [Json.obj [("id", Json.num 1), ("name", Json.str "tinywaves"), ("age", Json.num 10)],
     Json.obj [("id", Json.num 2), ("name", Json.str "Lyle Zheng"), ("age", Json.num 20)]])]

/-- A string from an explicit character list (inverse of `String.data`). -/
def charsToStr (cs : List Char) : String :=
  ⟨cs⟩

/-- Whether the first list is an initial segment of the second. -/
def listStarts : List Char → List Char → Bool
  | [], _ => true
  | _ :: _, [] => false
  | p :: ps, c :: cs => p = c && listStarts ps cs

/-- JavaScript `s.startsWith(pat)`. -/
def jsStartsWith (s pat : String) : Bool :=
  listStarts pat.data s.data

/-- JavaScript `s.endsWith(pat)`. -/
def jsEndsWith (s pat : String) : Bool :=
  listStarts pat.data.reverse s.data.reverse

/-- Index of the first occurrence of `pat` in `cs`, if any. -/
def findSub (pat : List Char) : List Char → Option Nat
  | [] => if listStarts pat [] then some 0 else none
  | c :: rest =>
      if listStarts pat (c :: rest) then some 0
      else (findSub pat rest).map (fun i => i + 1)

/-- JavaScript `s.replace(pat, '')`: remove only the first occurrence. -/
def replaceFirst (s pat : String) : String :=
  match findSub pat.data s.data with
  | none => s
  | some i => charsToStr (s.data.take i ++ s.data.drop (i + pat.data.length))

/-- JavaScript `s.split(sep)` for a one-character separator. -/
def splitChar (sep : Char) : List Char → List (List Char)
  | [] => [[]]
  | c :: rest =>
      if c = sep then [] :: splitChar sep rest
      else
        match splitChar sep rest with
        | [] => [[c]]
        | h :: t => (c :: h) :: t

/-- `url.replace(`${API_PREFIX}/`, '').split('/')` with `API_PREFIX = '/api'`:
the URL parts from which resource name and id are read. -/
def apiParts (url : String) : List String :=
  (splitChar '/' (replaceFirst url "/api/").data).map charsToStr

/-- JavaScript truthiness of an optional string (`undefined` and `""` are
falsy). -/
def truthyStr : Option String → Bool
  | none => false
  | some s => s ≠ ""

/-- The `req.on('end')` callback of the POST branch: concatenates the body
chunks, `JSON.parse`s them (`none` models a parse throw escaping the
callback), builds `{...JSON.parse(body), id: v4()}`, pushes it onto the
collection and answers 201 with the stored item. -/
def postEndCallback (p : String → Option Json) (genId : String) (name : String)
    (items : List Json) (body : String) (res : Res) (data : Data) :
    Except Unit (Res × Data) :=
  match p body with
  | none => .error ()
  | some parsed =>
      let newItem := Json.obj (mergeFields (spreadFields parsed) [("id", Json.str genId)])
      .ok (((res.setStatus 201).endWith newItem.stringify),
           data.setColl name (items ++ [newItem]))

/-- The `req.on('end')` callback of the PUT branch: parses the body, locates
the item by `findIndex(item => item.id === resourceId)`, answers 404 when
absent, otherwise stores `{...resourceData[index], ...updateData}` and
answers 200 with the merged item. -/
def putEndCallback (p : String → Option Json) (name : String) (items : List Json)
    (resourceId : String) (body : String) (res : Res) (data : Data) :
    Except Unit (Res × Data) :=
  match p body with
  | none => .error ()
  | some updateData =>
      match items.findIdx? (fun item => jsStrictEqStr (item.get? "id") resourceId) with
      | none =>
          .ok (((res.setStatus 404).endWith
                  (Json.stringify (Json.obj [("error", Json.str "Item not found")]))),
               data)
      | some index =>
          let merged := Json.obj (mergeFields
            (spreadFields (items.getD index Json.null)) (spreadFields updateData))
          .ok ((res.endWith merged.stringify),
               data.setColl name (items.set index merged))

/-- Result of one request through `processApi`: the client-visible response,
the Resource Store afterwards, and whether an exception escaped uncaught
(nothing above `processApi` awaits it, so such an exception is an unhandled
rejection / uncaught event-callback throw). -/
structure ApiOutcome where
  res : Res
  data : Data
  uncaught : Bool

/-- `Server.processApi` together with its deferred body callbacks. The
`try { switch ... } catch { 500 }` of the source wraps only the synchronous
part of each branch; the `req.on('end')` callbacks for POST and PUT run
after it has exited, so their throws are modelled as `uncaught`. -/
def processApi (p : String → Option Json) (genId : String) (method url body : String)
    (data : Data) (res : Res) : ApiOutcome :=
  if url = "" then
    ⟨(res.setStatus 400).endWith
       (Json.stringify (Json.obj [("error", Json.str "Invalid URL")])), data, false⟩
  else
    let urlParts := apiParts url
    let resourceName := (urlParts.get? 0).getD ""
    let resourceId? := urlParts.get? 1
    match data.findColl resourceName with
    | none =>
        ⟨(res.setStatus 404).endWith
           (Json.stringify (Json.obj [("error", Json.str "Resource not found")])), data, false⟩
    | some resourceData =>
        -- `res.setHeader` throws `ERR_HTTP_HEADERS_SENT` when the response has
        -- already ended; nothing catches it before the `try` below begins.
        if res.ended then ⟨res, data, true⟩
        else
          let res := res.setHeader "Content-Type" "application/json"
          match method with
          | "GET" =>
              if truthyStr resourceId? then
                let rid := resourceId?.getD ""
                match resourceData.find? (fun item => jsStrictEqStr (item.get? "id") rid) with
                | none =>
                    ⟨(res.setStatus 404).endWith
                       (Json.stringify (Json.obj [("error", Json.str "Item not found")])),
                     data, false⟩
                | some item => ⟨res.endWith item.stringify, data, false⟩
              else
                ⟨res.endWith (Json.arr resourceData).stringify, data, false⟩
          | "POST" =>
              -- callback registered inside the try; it runs after the
              -- try/catch has exited, so a throw inside it stays uncaught
              match postEndCallback p genId resourceName resourceData body res data with
              | .error () => ⟨res, data, true⟩
              | .ok (res', data') => ⟨res', data', false⟩
          | "PUT" =>
              if ¬ truthyStr resourceId? then
                ⟨(res.setStatus 400).endWith
                   (Json.stringify (Json.obj [("error", Json.str "Resource ID is required")])),
                 data, false⟩
              else
                match putEndCallback p resourceName resourceData (resourceId?.getD "")
                        body res data with
                | .error () => ⟨res, data, true⟩
                | .ok (res', data') => ⟨res', data', false⟩
          | "DELETE" =>
              if ¬ truthyStr resourceId? then
                ⟨(res.setStatus 400).endWith
                   (Json.stringify (Json.obj [("error", Json.str "Resource ID is required")])),
                 data, false⟩
              else
                let rid := resourceId?.getD ""
                match resourceData.findIdx? (fun item => jsStrictEqStr (item.get? "id") rid) with
                | none =>
                    ⟨(res.setStatus 404).endWith
                       (Json.stringify (Json.obj [("error", Json.str "Item not found")])),
                     data, false⟩
                | some index =>
                    -- resourceData.splice(index, 1)
                    ⟨(res.setStatus 204).endEmpty,
                     data.setColl resourceName
                       (resourceData.take index ++ resourceData.drop (index + 1)), false⟩
          | _ =>
              ⟨(res.setStatus 405).endWith
                 (Json.stringify (Json.obj [("error", Json.str "Method not allowed")])),
               data, false⟩

/-- `Server.processCors`: if the request carries a truthy `Origin` header,
echo it as `Access-Control-Allow-Origin`; on an `OPTIONS` request also set
the remaining CORS headers, status 200, and end with an empty body (the
method's early `return`). The caller in `start()` ignores this return. -/
def processCors (origin? : Option String) (method : String) (res : Res) : Res :=
  match origin? with
  | none => res
  | some origin =>
      if origin = "" then res
      else
        let res := res.setHeader "Access-Control-Allow-Origin" origin
        if method = "OPTIONS" then
          ((((res.setHeader "Access-Control-Allow-Methods" "GET, POST, PUT, DELETE").setHeader
              "Access-Control-Allow-Headers" "Content-Type").setHeader
              "Access-Control-Max-Age" "86400").setStatus 200).endEmpty
        else res

/-- Metadata of a filesystem entry as used by the server: `stat.mtime`
in milliseconds and `stat.size` in bytes. -/
structure FileStat where
  mtimeMs : Nat
  size : Nat
deriving DecidableEq, Repr

/-- A filesystem node: a regular file with its stat, or a directory with the
names of its direct children. -/
inductive FsNode where
  | file : FileStat → FsNode
  | dir : List String → FsNode
deriving DecidableEq, Repr

/-- A snapshot of the filesystem: absolute path to node. -/
abbrev Fs := String → Option FsNode

/-- `fs.readdir(dir)`: names of the direct children of a directory. -/
def fsReaddir (fs : Fs) (dir : String) : List String :=
  match fs dir with
  | some (.dir names) => names
  | _ => []

/-- `statSync(path).size`: byte size of the node at `path` (the directory
listing only stats paths that exist, so the default is never relevant to
the claims). -/
def fsStatSize (fs : Fs) (path : String) : Nat :=
  match fs path with
  | some (.file st) => st.size
  | _ => 0

/-- Model of node `path.join(a, b)` for the joins this server performs:
collapse the joining slash, no `..` normalisation. -/
def pathJoin (a b : String) : String :=
  let a' := if jsEndsWith a "/" then a.data.dropLast else a.data
  let b' := if jsStartsWith b "/" then b.data.drop 1 else b.data
  charsToStr (a' ++ '/' :: b')

/-- Model of the `mime.getType` collaborator restricted to the extensions
exercised in this development; `none` models its `null` for unknown types. -/
def mimeLookup (file : String) : Option String :=
  if jsEndsWith file ".html" then some "text/html"
  else if jsEndsWith file ".txt" then some "text/plain"
  else if jsEndsWith file ".json" then some "application/json"
  else if jsEndsWith file ".js" then some "text/javascript"
  else none

/-- A Directory Listing Entry: the record built per child in
`Server.processDirectory`. -/
structure DirEntry where
  contentName : String
  href : String
  size : Nat
deriving DecidableEq, Repr

/-- Modelled from the spec: the EJS templating collaborator applied to
`TMPL` (`ejs.render` itself is an external library; `TMPL` lives in
`constants.ts`). One `<li>` hyperlink with a byte size per entry. -/
def renderEntry (e : DirEntry) : String :=
  "<li><a href=\"" ++ e.href ++ "\">" ++ e.contentName ++ "</a>(size: "
    ++ toString e.size ++ "bytes)</li>"

/-- Modelled from the spec: the full `ejs.render(TMPL, { directories })`
output, one rendered entry per directory child inside the fixed page shell. -/
def ejsRenderTmpl (entries : List DirEntry) : String :=
  "<ul>" ++ String.intercalate "\n" (entries.map renderEntry) ++ "</ul>"

/-- The `content` array of `Server.processDirectory`: one entry per direct
child with the request path joined with the child name as href and the
child's stat size. -/
def directoryEntries (fs : Fs) (dir requestUrl : String) : List DirEntry :=
  (fsReaddir fs dir).map (fun contentName =>
    { contentName := contentName
      href := pathJoin requestUrl contentName
      size := fsStatSize fs (pathJoin dir contentName) })

/-- `Server.processDirectory`: render the listing and end the response with
content type `text/html;charset=utf-8` (status stays at its default 200). -/
def processDirectory (fs : Fs) (dir : String) (res : Res) (requestUrl : String) : Res :=
  let html := ejsRenderTmpl (directoryEntries fs dir requestUrl)
  (res.setHeader "Content-Type" "text/html;charset=utf-8").endWith html

/-- `Server.processCache`: compute the fingerprint
`${stat.mtime.getTime()}-${stat.size}`, set `Etag` and
`Cache-Control: max-age=10`, and when the request's `if-none-match` header
is truthy and equal to the fingerprint answer 304 and end the response. -/
def processCache (res : Res) (st : FileStat) (ifNoneMatch? : Option String) : Res :=
  let etag := toString st.mtimeMs ++ "-" ++ toString st.size
  let res := (res.setHeader "Etag" etag).setHeader "Cache-Control" "max-age=10"
  match ifNoneMatch? with
  | none => res
  | some inm =>
      if inm ≠ "" ∧ inm = etag then (res.setStatus 304).endEmpty else res

/-- `Server.processFile`. The source invokes `processCache` without `await`;
`processCache` suspends at its own `fs.stat` before touching the response,
so the synchronous remainder of `processFile` — the `Content-Type` header
and `createReadStream(file).pipe(res)` — runs first, and the cache
continuation (`Etag`/`Cache-Control`/304) runs when that stat resolves,
before the piped stream delivers its first chunk. The pipe is therefore
started unconditionally; if the cache continuation has ended the response
by the time the stream's data arrives, the write fails after end. -/
def processFile (cache : Bool) (st : FileStat) (ifNoneMatch? : Option String)
    (file : String) (res : Res) : Res :=
  let res := res.setHeader "Content-Type"
    ((mimeLookup file).getD "text/plain" ++ ";charset=utf-8")
  let res := { res with pipeStarted := true }
  if cache then processCache res st ifNoneMatch? else res

/-- `ServerOptions` from `types.ts` (the fields the claims depend on). -/
structure ServerOptions where
  port? : Option Nat := none
  baseDir? : Option String := none
  dataPosition? : Option String := none
  cors? : Option Bool := none
  cache? : Option Bool := none

/-- The `Server` instance state established by the constructor. -/
structure Server where
  port : Nat
  baseDir : String
  data : Data
  cors : Bool
  cache : Bool

/-- JavaScript truthiness of `options?.flag` for a boolean option. -/
def truthyBool : Option Bool → Bool
  | none => false
  | some b => b

/-- The `Server` constructor. Field initialisers run first (`port = 8080`,
`baseDir = cwd`, `cors = false`, `cache = true`), then the constructor body:
`if (options?.port) ...`, `if (options?.baseDir) ...`, the data seed
(`fileData` stands for the parsed external JSON when `dataPosition` is
given), `if (options?.cors) this.cors = true`, and
`if (!options?.cache) this.cache = false`. -/
def Server.make (cwd : String) (fileData : Data) (options? : Option ServerOptions) : Server :=
  let port :=
    match options?.bind ServerOptions.port? with
    | some p => if p ≠ 0 then p else 8080
    | none => 8080
  let baseDir :=
    match options?.bind ServerOptions.baseDir? with
    | some d => if d ≠ "" then d else cwd
    | none => cwd
  let data :=
    match options?.bind ServerOptions.dataPosition? with
    | some pos => if pos ≠ "" then fileData else DEFAULT_DATA
    | none => DEFAULT_DATA
  let cors := truthyBool (options?.bind ServerOptions.cors?)
  let cache := if ¬ truthyBool (options?.bind ServerOptions.cache?) then false else true
  { port := port, baseDir := baseDir, data := data, cors := cors, cache := cache }

/-- Outcome of one request through the `http.createServer` handler in
`Server.start`: the client-visible response, the Resource Store afterwards,
whether `processApi` was invoked, and whether an exception escaped uncaught
(the API branch is `async` and not awaited, so its failures bypass the
surrounding try/catch). -/
structure DispatchOutcome where
  res : Res
  data : Data
  apiInvoked : Bool
  uncaught : Bool

/-- The request handler installed by `Server.start`: run the CORS gate when
enabled (its return value is ignored), then classify the decoded URL — API
prefix to `processApi`, otherwise `fs.stat` the joined path and serve a
directory listing or a file; a failing stat is caught and answered
`404 Not found`. Request URLs are modelled already percent-decoded. -/
def handleRequest (p : String → Option Json) (genId : String) (fs : Fs)
    (server : Server) (method url : String) (origin? ifNoneMatch? : Option String)
    (body : String) : DispatchOutcome :=
  let res : Res := {}
  let res := if server.cors then processCors origin? method res else res
  if jsStartsWith url "/api" then
    let o := processApi p genId method url body server.data res
    ⟨o.res, o.data, true, o.uncaught⟩
  else
    let wholePath := pathJoin server.baseDir url
    match fs wholePath with
    | none => ⟨(res.setStatus 404).endWith "Not found", server.data, false, false⟩
    | some (.dir _) => ⟨processDirectory fs wholePath res url, server.data, false, false⟩
    | some (.file st) =>
        ⟨processFile server.cache st ifNoneMatch? wholePath res, server.data, false, false⟩

/-- A concrete stand-in for `JSON.parse` used by witnesses: three fixed
well-formed bodies, anything else a parse failure. -/
def parseFix : String → Option Json :=
  fun s =>
    if s = "pa" then some (Json.obj [("name", Json.str "alpha"), ("id", Json.str "client")])
    else if s = "pb" then some (Json.obj [("name", Json.str "beta")])
    else if s = "pu" then some (Json.obj [("id", Json.str "evil"), ("age", Json.num 30)])
    else none

/-- A concrete filesystem for witnesses: `/cwd/docs` holds `a.txt` (3 bytes)
and `b.txt` (5 bytes). -/
def fsDocs : Fs :=
  fun path =>
    if path = "/cwd/docs" then some (.dir ["a.txt", "b.txt"])
    else if path = "/cwd/docs/a.txt" then some (.file ⟨1000, 3⟩)
    else if path = "/cwd/docs/b.txt" then some (.file ⟨2000, 5⟩)
    else none

/-- An initially empty `posts` collection for the POST witnesses. -/
def dataPosts : Data := [("posts", [])]

/-- A one-item collection whose item has the string id `"a"`, for the
PUT/DELETE witnesses. -/
def dataItems : Data := [("items", [Json.obj [("id", Json.str "a"), ("n", Json.num 1)]])]

/-- Updating a collection that exists in the store makes subsequent lookups
see the new item list. -/
theorem findColl_setColl {d : Data} {n : String} {xs : List Json} (ys : List Json)
    (h : d.findColl n = some xs) : (d.setColl n ys).findColl n = some ys := by
  induction d with
  | nil => simp [Data.findColl] at h
  | cons p t ih =>
      obtain ⟨k, v⟩ := p
      by_cases hk : k = n
      · simp [Data.findColl, Data.setColl, hk]
      · simp only [Data.findColl, Data.setColl, hk, if_false, if_neg hk] at h ⊢
        exact ih h

/-- Field lookup distributes over list append, first list winning. -/
theorem lookupField_append (x y : List (String × Json)) (k : String) :
    lookupField (x ++ y) k = (lookupField x k).or (lookupField y k) := by
  cases hx : x.find? (fun p => p.1 = k) <;>
    simp [lookupField, List.find?_append, hx, Option.or]

/-- Field lookup through the overriding map of `mergeFields`: keys are kept,
values are replaced by `b`'s value at the same key when present. -/
theorem lookupField_mapOver (a b : List (String × Json)) (k : String) :
    lookupField (a.map (fun p =>
        match b.find? (fun q => q.1 = p.1) with
        | some q => (p.1, q.2)
        | none => p)) k
      = (lookupField a k).map (fun v => (lookupField b k).getD v) := by
  induction a with
  | nil => rfl
  | cons p t ih =>
      by_cases hpk : p.1 = k
      · cases hb : b.find? (fun q => q.1 = p.1) with
        | none =>
            have hbk : b.find? (fun q => q.1 = k) = none := hpk ▸ hb
            simp [lookupField, List.find?_cons, hpk, hb, hbk]
        | some q0 =>
            have hbk : b.find? (fun q => q.1 = k) = some q0 := hpk ▸ hb
            simp [lookupField, List.find?_cons, hpk, hb, hbk]
      · have hd : (decide (p.1 = k)) = false := decide_eq_false hpk
        cases hb : b.find? (fun q => q.1 = p.1) <;>
          simp only [lookupField, List.map_cons, List.find?_cons, hb, hd] at ih ⊢ <;>
          exact ih

/-- When `a` has no field `k`, filtering `b` down to the keys absent from `a`
does not change the lookup of `k`. -/
theorem lookupField_filterNotIn_none (a b : List (String × Json)) (k : String)
    (ha : a.find? (fun p => p.1 = k) = none) :
    lookupField (b.filter (fun q => (a.find? (fun p => p.1 = q.1)).isNone)) k
      = lookupField b k := by
  induction b with
  | nil => rfl
  | cons q bt ih =>
      by_cases hqk : q.1 = k
      · have hfa : a.find? (fun p => p.1 = q.1) = none := by
          rw [show (fun p : String × Json => decide (p.1 = q.1))
                = (fun p : String × Json => decide (p.1 = k)) from by
              funext r; rw [hqk]]
          exact ha
        simp only [List.filter_cons, hfa, Option.isNone_none, if_true]
        simp only [lookupField, List.find?_cons, decide_eq_true hqk]
      · cases hkeep : (a.find? (fun p => p.1 = q.1)).isNone with
        | false =>
            simp only [List.filter_cons, hkeep, Bool.false_eq_true, if_false]
            rw [ih]
            simp only [lookupField, List.find?_cons, decide_eq_false hqk]
        | true =>
            simp only [List.filter_cons, hkeep, if_true]
            simp only [lookupField, List.find?_cons, decide_eq_false hqk]
            exact ih

/-- When `a` has field `k`, filtering `b` down to the keys absent from `a`
removes every field `k` of `b`. -/
theorem lookupField_filterNotIn_some (a b : List (String × Json)) (k : String)
    (v : String × Json) (ha : a.find? (fun p => p.1 = k) = some v) :
    lookupField (b.filter (fun q => (a.find? (fun p => p.1 = q.1)).isNone)) k
      = none := by
  induction b with
  | nil => rfl
  | cons q bt ih =>
      by_cases hqk : q.1 = k
      · have hfa : a.find? (fun p => p.1 = q.1) = some v := by
          rw [show (fun p : String × Json => decide (p.1 = q.1))
                = (fun p : String × Json => decide (p.1 = k)) from by
              funext r; rw [hqk]]
          exact ha
        simp only [List.filter_cons, hfa, Option.isNone_some, Bool.false_eq_true, if_false]
        exact ih
      · cases hkeep : (a.find? (fun p => p.1 = q.1)).isNone with
        | false =>
            simp only [List.filter_cons, hkeep, Bool.false_eq_true, if_false]
            exact ih
        | true =>
            simp only [List.filter_cons, hkeep, if_true]
            simp only [lookupField, List.find?_cons, decide_eq_false hqk] at ih ⊢
            exact ih

/-- Field lookup through a JavaScript spread-merge: a key of `a` keeps its
value unless `b` overrides it, a key only in `b` gets `b`'s value. -/
theorem lookupField_mergeFields (a b : List (String × Json)) (k : String) :
    lookupField (mergeFields a b) k =
      match lookupField a k with
      | some v => some ((lookupField b k).getD v)
      | none => lookupField b k := by
  rw [mergeFields, lookupField_append, lookupField_mapOver]
  cases hak : a.find? (fun p => p.1 = k) with
  | none =>
      rw [show lookupField a k = none from by simp [lookupField, hak]]
      rw [lookupField_filterNotIn_none a b k hak]
      simp [Option.or]
  | some v =>
      rw [show lookupField a k = some v.2 from by simp [lookupField, hak]]
      rw [lookupField_filterNotIn_some a b k v hak]
      simp [Option.or]

/-- A field present in the update always wins the spread-merge. -/
theorem lookupField_mergeFields_override (a b : List (String × Json)) (k : String)
    (w : Json) (h : lookupField b k = some w) :
    lookupField (mergeFields a b) k = some w := by
  rw [lookupField_mergeFields]
  cases lookupField a k <;> simp [h]

/-- A field absent from the update survives the spread-merge unchanged. -/
theorem lookupField_mergeFields_keep (a b : List (String × Json)) (k : String)
    (h : lookupField b k = none) :
    lookupField (mergeFields a b) k = lookupField a k := by
  rw [lookupField_mergeFields]
  cases lookupField a k <;> simp [h]

/-- Merging `[(k, x)]` over any field list pins field `k` to `x`. -/
theorem lookupField_mergeFields_single (a : List (String × Json)) (k : String)
    (x : Json) : lookupField (mergeFields a [(k, x)]) k = some x := by
  apply lookupField_mergeFields_override
  simp [lookupField]

/-- A singleton field list has no other field. -/
theorem lookupField_single_ne (k k' : String) (x : Json) (h : k' ≠ k) :
    lookupField [(k, x)] k' = none := by
  simp [lookupField, List.find?_cons, Ne.symm h]

/-- C4: the spec states that the Cache Negotiator is on by default and
disabled only by an explicit opt-out, and the field initialiser
`cache: boolean = true` agrees; but the constructor's
`if (!options?.cache) this.cache = false` fires whenever `cache` is simply
unspecified, so a server constructed without options (or with options that
do not mention `cache`) has caching off, and it is on only when the caller
explicitly passes `cache: true`. -/
theorem C4_cache_default_off :
    (Server.make "/cwd" [] none).cache = false ∧
    (Server.make "/cwd" [] (some {})).cache = false ∧
    (Server.make "/cwd" [] (some { cache? := some true })).cache = true :=
  ⟨rfl, rfl, rfl⟩

/-- C2: a file request (mtime 1000 ms, size 3 bytes) carrying
`if-none-match: 1000-3` with caching enabled does see status 304 with an
empty body in the model's event order, but the handler does not stop there:
`processFile` never awaits `processCache` nor checks its outcome, so
`createReadStream(file).pipe(res)` is initiated unconditionally
(`pipeStarted = true`), contradicting the claim that the response ends
immediately and the file's bytes are never sent. -/
theorem C2_etag_match_still_pipes_file :
    (processFile true ⟨1000, 3⟩ (some "1000-3") "/srv/a.txt" {}).statusCode = 304 ∧
    (processFile true ⟨1000, 3⟩ (some "1000-3") "/srv/a.txt" {}).body = "" ∧
    (processFile true ⟨1000, 3⟩ (some "1000-3") "/srv/a.txt" {}).ended = true ∧
    (processFile true ⟨1000, 3⟩ (some "1000-3") "/srv/a.txt" {}).pipeStarted = true :=
  ⟨rfl, rfl, rfl, rfl⟩

/-- C3: a POST to the existing `users` collection whose body fails to parse
(`fun _ => none` models `JSON.parse` throwing on this body) is NOT answered
500: the throw happens inside the `req.on('end')` callback after
`processApi`'s try/catch has exited, so it escapes uncaught and no response
is sent at all (response never ended, status never set to 500). -/
theorem C3_parse_failure_escapes_uncaught :
    (processApi (fun _ => none) "g" "POST" "/api/users" "not-json" DEFAULT_DATA {}).uncaught
        = true ∧
    (processApi (fun _ => none) "g" "POST" "/api/users" "not-json" DEFAULT_DATA {}).res.ended
        = false ∧
    (processApi (fun _ => none) "g" "POST" "/api/users" "not-json" DEFAULT_DATA
        {}).res.statusCode ≠ 500 :=
  ⟨rfl, rfl, by decide⟩

/-- C10: with the built-in seed data, every GET, PUT (with a body that
parses) or DELETE that addresses an item of the `users` collection by a
(nonempty) id path segment answers 404 `{error:"Item not found"}` and
leaves the Resource Store untouched: the seeded ids are the JSON numbers
1 and 2, while the lookup compares `item.id === resourceId` against the URL
segment, a string, so no seeded item ever matches. -/
theorem C10_seeded_numeric_ids_never_match (p : String → Option Json)
    (g url seg body : String) (v : Json)
    (hparts : apiParts url = ["users", seg]) (hseg : seg ≠ "")
    (hp : p body = some v) :
    ((processApi p g "GET" url "" DEFAULT_DATA {}).res.statusCode = 404
      ∧ (processApi p g "GET" url "" DEFAULT_DATA {}).res.body
          = Json.stringify (Json.obj [("error", Json.str "Item not found")])
      ∧ (processApi p g "GET" url "" DEFAULT_DATA {}).data = DEFAULT_DATA)
    ∧ ((processApi p g "PUT" url body DEFAULT_DATA {}).res.statusCode = 404
      ∧ (processApi p g "PUT" url body DEFAULT_DATA {}).res.body
          = Json.stringify (Json.obj [("error", Json.str "Item not found")])
      ∧ (processApi p g "PUT" url body DEFAULT_DATA {}).data = DEFAULT_DATA)
    ∧ ((processApi p g "DELETE" url "" DEFAULT_DATA {}).res.statusCode = 404
      ∧ (processApi p g "DELETE" url "" DEFAULT_DATA {}).res.body
          = Json.stringify (Json.obj [("error", Json.str "Item not found")])
      ∧ (processApi p g "DELETE" url "" DEFAULT_DATA {}).data = DEFAULT_DATA) := by
  have hurl : ¬ (url = "") := by
    intro h
    subst h
    rw [show apiParts "" = [""] from rfl] at hparts
    simp at hparts
  have htr : truthyStr (some seg) = true := by
    simp [truthyStr, hseg]
  have hfind : List.find? (fun item => jsStrictEqStr (item.get? "id") seg)
      [Json.obj [("id", Json.num 1), ("name", Json.str "tinywaves"), ("age", Json.num 10)],
       Json.obj [("id", Json.num 2), ("name", Json.str "Lyle Zheng"), ("age", Json.num 20)]]
      = none := rfl
  have hfidx : List.findIdx? (fun item => jsStrictEqStr (item.get? "id") seg)
      [Json.obj [("id", Json.num 1), ("name", Json.str "tinywaves"), ("age", Json.num 10)],
       Json.obj [("id", Json.num 2), ("name", Json.str "Lyle Zheng"), ("age", Json.num 20)]]
      = none := rfl
  refine ⟨⟨?_, ?_, ?_⟩, ⟨?_, ?_, ?_⟩, ?_, ?_, ?_⟩ <;>
    simp [processApi, hurl, hparts, htr, hfind, hfidx, hp, putEndCallback,
      DEFAULT_DATA, Data.findColl, Res.setHeader, Res.setStatus, Res.endWith, Res.endEmpty]

/-- C7 as stated is false: a PUT to the existing `users` collection with id
segment `zzz` (matching no item) whose body is not valid JSON is never
answered at all — the parse throw escapes the `req.on('end')` callback
uncaught, before the id lookup can run — so at this input there is no 404
response (the response is never ended). -/
theorem C7_counterexample_malformed_body :
    ¬ ((processApi (fun _ => none) "g" "PUT" "/api/users/zzz" "not-json" DEFAULT_DATA
          {}).res.statusCode = 404
        ∧ (processApi (fun _ => none) "g" "PUT" "/api/users/zzz" "not-json" DEFAULT_DATA
          {}).res.ended = true)
    ∧ (processApi (fun _ => none) "g" "PUT" "/api/users/zzz" "not-json" DEFAULT_DATA
          {}).uncaught = true :=
  ⟨by decide, rfl⟩

/-- C7 amended: for every PUT to an existing collection whose body parses as
JSON and whose id segment matches no item, the response is 404
`{error:"Item not found"}` and the store is returned unchanged (so in
particular the collection's length is unchanged). -/
theorem C7_put_unknown_id_404 (p : String → Option Json)
    (g url body name rid : String) (v : Json) (items : List Json) (data : Data)
    (hparts : apiParts url = [name, rid]) (hrid : rid ≠ "")
    (hcoll : data.findColl name = some items) (hp : p body = some v)
    (hidx : items.findIdx? (fun item => jsStrictEqStr (item.get? "id") rid) = none) :
    (processApi p g "PUT" url body data {}).res.statusCode = 404
    ∧ (processApi p g "PUT" url body data {}).res.ended = true
    ∧ (processApi p g "PUT" url body data {}).res.body
        = Json.stringify (Json.obj [("error", Json.str "Item not found")])
    ∧ (processApi p g "PUT" url body data {}).data = data := by
  have hurl : ¬ (url = "") := by
    intro h
    subst h
    rw [show apiParts "" = [""] from rfl] at hparts
    simp at hparts
  have htr : truthyStr (some rid) = true := by
    simp [truthyStr, hrid]
  refine ⟨?_, ?_, ?_, ?_⟩ <;>
    simp [processApi, hurl, hparts, htr, hcoll, hp, hidx, putEndCallback,
      Res.setHeader, Res.setStatus, Res.endWith, Res.endEmpty]

/-- C7 amended, witnessed at PUT `/api/users/zzz` with the parseable body
`pu` against the seed data (no seeded item has a string id). -/
theorem C7_put_unknown_id_404_witness :
    apiParts "/api/users/zzz" = ["users", "zzz"]
    ∧ ("zzz" : String) ≠ ""
    ∧ DEFAULT_DATA.findColl "users"
        = some [Json.obj [("id", Json.num 1), ("name", Json.str "tinywaves"),
                          ("age", Json.num 10)],
                Json.obj [("id", Json.num 2), ("name", Json.str "Lyle Zheng"),
                          ("age", Json.num 20)]]
    ∧ parseFix "pu" = some (Json.obj [("id", Json.str "evil"), ("age", Json.num 30)])
    ∧ List.findIdx? (fun item => jsStrictEqStr (item.get? "id") "zzz")
        [Json.obj [("id", Json.num 1), ("name", Json.str "tinywaves"), ("age", Json.num 10)],
         Json.obj [("id", Json.num 2), ("name", Json.str "Lyle Zheng"), ("age", Json.num 20)]]
        = none
    ∧ ((processApi parseFix "gid" "PUT" "/api/users/zzz" "pu" DEFAULT_DATA {}).res.statusCode
          = 404
      ∧ (processApi parseFix "gid" "PUT" "/api/users/zzz" "pu" DEFAULT_DATA {}).res.ended
          = true
      ∧ (processApi parseFix "gid" "PUT" "/api/users/zzz" "pu" DEFAULT_DATA {}).res.body
          = Json.stringify (Json.obj [("error", Json.str "Item not found")])
      ∧ (processApi parseFix "gid" "PUT" "/api/users/zzz" "pu" DEFAULT_DATA {}).data
          = DEFAULT_DATA) :=
  ⟨by decide, by decide, rfl, rfl, rfl,
   C7_put_unknown_id_404 parseFix "gid" "/api/users/zzz" "pu" "users" "zzz"
     (Json.obj [("id", Json.str "evil"), ("age", Json.num 30)])
     [Json.obj [("id", Json.num 1), ("name", Json.str "tinywaves"), ("age", Json.num 10)],
      Json.obj [("id", Json.num 2), ("name", Json.str "Lyle Zheng"), ("age", Json.num 20)]]
     DEFAULT_DATA (by decide) (by decide) rfl rfl rfl⟩

/-- C5: a POST with a valid JSON body to an existing, initially empty
collection stores `{...parsed, id: v4()}` — the parsed body with its `id`
replaced by the freshly generated identifier, any client-supplied id
overwritten, other top-level fields kept — appends it at the end, and
answers 201 with the stored item; a second POST with a distinct generated
id yields exactly two items with distinct ids, and GET without id then
returns them in insertion order. -/
theorem C5_post_fresh_id_appends_in_order (p : String → Option Json)
    (g1 g2 g3 url body1 body2 name : String) (v1 v2 : Json) (data : Data)
    (hurl : url ≠ "") (hparts : apiParts url = [name])
    (hcoll : data.findColl name = some [])
    (hp1 : p body1 = some v1) (hp2 : p body2 = some v2) (hg : g1 ≠ g2) :
    (processApi p g1 "POST" url body1 data {}).res.statusCode = 201
    ∧ (processApi p g1 "POST" url body1 data {}).res.ended = true
    ∧ (processApi p g1 "POST" url body1 data {}).res.body
        = (Json.obj (mergeFields (spreadFields v1) [("id", Json.str g1)])).stringify
    ∧ (processApi p g1 "POST" url body1 data {}).data.findColl name
        = some [Json.obj (mergeFields (spreadFields v1) [("id", Json.str g1)])]
    ∧ (Json.obj (mergeFields (spreadFields v1) [("id", Json.str g1)])).get? "id"
        = some (Json.str g1)
    ∧ (∀ k, k ≠ "id" →
        (Json.obj (mergeFields (spreadFields v1) [("id", Json.str g1)])).get? k
          = lookupField (spreadFields v1) k)
    ∧ (processApi p g2 "POST" url body2
        (processApi p g1 "POST" url body1 data {}).data {}).res.statusCode = 201
    ∧ (processApi p g2 "POST" url body2
        (processApi p g1 "POST" url body1 data {}).data {}).res.body
        = (Json.obj (mergeFields (spreadFields v2) [("id", Json.str g2)])).stringify
    ∧ (processApi p g2 "POST" url body2
        (processApi p g1 "POST" url body1 data {}).data {}).data.findColl name
        = some [Json.obj (mergeFields (spreadFields v1) [("id", Json.str g1)]),
                Json.obj (mergeFields (spreadFields v2) [("id", Json.str g2)])]
    ∧ (Json.obj (mergeFields (spreadFields v2) [("id", Json.str g2)])).get? "id"
        = some (Json.str g2)
    ∧ (Json.obj (mergeFields (spreadFields v1) [("id", Json.str g1)])).get? "id"
        ≠ (Json.obj (mergeFields (spreadFields v2) [("id", Json.str g2)])).get? "id"
    ∧ (processApi p g3 "GET" url ""
        (processApi p g2 "POST" url body2
          (processApi p g1 "POST" url body1 data {}).data {}).data {}).res.statusCode = 200
    ∧ (processApi p g3 "GET" url ""
        (processApi p g2 "POST" url body2
          (processApi p g1 "POST" url body1 data {}).data {}).data {}).res.ended = true
    ∧ (processApi p g3 "GET" url ""
        (processApi p g2 "POST" url body2
          (processApi p g1 "POST" url body1 data {}).data {}).data {}).res.body
        = (Json.arr [Json.obj (mergeFields (spreadFields v1) [("id", Json.str g1)]),
                     Json.obj (mergeFields (spreadFields v2) [("id", Json.str g2)])]).stringify
    := by
  have hurl' : ¬ (url = "") := hurl
  have hd1 : (data.setColl name
        [Json.obj (mergeFields (spreadFields v1) [("id", Json.str g1)])]).findColl name
      = some [Json.obj (mergeFields (spreadFields v1) [("id", Json.str g1)])] :=
    findColl_setColl _ hcoll
  have hd2 : ((data.setColl name
        [Json.obj (mergeFields (spreadFields v1) [("id", Json.str g1)])]).setColl name
        [Json.obj (mergeFields (spreadFields v1) [("id", Json.str g1)]),
         Json.obj (mergeFields (spreadFields v2) [("id", Json.str g2)])]).findColl name
      = some [Json.obj (mergeFields (spreadFields v1) [("id", Json.str g1)]),
              Json.obj (mergeFields (spreadFields v2) [("id", Json.str g2)])] :=
    findColl_setColl _ hd1
  refine ⟨?_, ?_, ?_, ?_, ?_, ?_, ?_, ?_, ?_, ?_, ?_, ?_, ?_, ?_⟩
  · simp [processApi, hurl', hparts, hcoll, postEndCallback, hp1,
      Res.setHeader, Res.setStatus, Res.endWith, Res.endEmpty]
  · simp [processApi, hurl', hparts, hcoll, postEndCallback, hp1,
      Res.setHeader, Res.setStatus, Res.endWith, Res.endEmpty]
  · simp [processApi, hurl', hparts, hcoll, postEndCallback, hp1,
      Res.setHeader, Res.setStatus, Res.endWith, Res.endEmpty]
  · simp [processApi, hurl', hparts, hcoll, postEndCallback, hp1, hd1,
      Res.setHeader, Res.setStatus, Res.endWith, Res.endEmpty]
  · simp [Json.get?, lookupField_mergeFields_single]
  · intro k hk
    rw [show (Json.obj (mergeFields (spreadFields v1) [("id", Json.str g1)])).get? k
          = lookupField (mergeFields (spreadFields v1) [("id", Json.str g1)]) k from rfl]
    exact lookupField_mergeFields_keep _ _ _ (lookupField_single_ne _ _ _ hk)
  · simp [processApi, hurl', hparts, hcoll, postEndCallback, hp1, hp2, hd1,
      Res.setHeader, Res.setStatus, Res.endWith, Res.endEmpty]
  · simp [processApi, hurl', hparts, hcoll, postEndCallback, hp1, hp2, hd1,
      Res.setHeader, Res.setStatus, Res.endWith, Res.endEmpty]
  · simp [processApi, hurl', hparts, hcoll, postEndCallback, hp1, hp2, hd1, hd2,
      Res.setHeader, Res.setStatus, Res.endWith, Res.endEmpty]
  · simp [Json.get?, lookupField_mergeFields_single]
  · simp [Json.get?, lookupField_mergeFields_single, hg]
  · simp [processApi, hurl', hparts, hcoll, postEndCallback, hp1, hp2, hd1, hd2,
      truthyStr, Res.setHeader, Res.setStatus, Res.endWith, Res.endEmpty]
  · simp [processApi, hurl', hparts, hcoll, postEndCallback, hp1, hp2, hd1, hd2,
      truthyStr, Res.setHeader, Res.setStatus, Res.endWith, Res.endEmpty]
  · simp [processApi, hurl', hparts, hcoll, postEndCallback, hp1, hp2, hd1, hd2,
      truthyStr, Res.setHeader, Res.setStatus, Res.endWith, Res.endEmpty]

/-- C5 witnessed: two POSTs (`pa` carrying a client-supplied id, `pb`
without) with generated ids `uuid-1` and `uuid-2` against the empty `posts`
collection. -/
theorem C5_post_fresh_id_appends_in_order_witness :
    ("/api/posts" : String) ≠ ""
    ∧ apiParts "/api/posts" = ["posts"]
    ∧ dataPosts.findColl "posts" = some []
    ∧ parseFix "pa" = some (Json.obj [("name", Json.str "alpha"), ("id", Json.str "client")])
    ∧ parseFix "pb" = some (Json.obj [("name", Json.str "beta")])
    ∧ ("uuid-1" : String) ≠ "uuid-2"
    ∧ ((processApi parseFix "uuid-1" "POST" "/api/posts" "pa" dataPosts {}).res.statusCode = 201
    ∧ (processApi parseFix "uuid-1" "POST" "/api/posts" "pa" dataPosts {}).res.ended = true
    ∧ (processApi parseFix "uuid-1" "POST" "/api/posts" "pa" dataPosts {}).res.body
        = (Json.obj (mergeFields
            (spreadFields (Json.obj [("name", Json.str "alpha"), ("id", Json.str "client")]))
            [("id", Json.str "uuid-1")])).stringify
    ∧ (processApi parseFix "uuid-1" "POST" "/api/posts" "pa" dataPosts {}).data.findColl "posts"
        = some [Json.obj (mergeFields
            (spreadFields (Json.obj [("name", Json.str "alpha"), ("id", Json.str "client")]))
            [("id", Json.str "uuid-1")])]
    ∧ (Json.obj (mergeFields
          (spreadFields (Json.obj [("name", Json.str "alpha"), ("id", Json.str "client")]))
          [("id", Json.str "uuid-1")])).get? "id"
        = some (Json.str "uuid-1")
    ∧ (∀ k, k ≠ "id" →
        (Json.obj (mergeFields
          (spreadFields (Json.obj [("name", Json.str "alpha"), ("id", Json.str "client")]))
          [("id", Json.str "uuid-1")])).get? k
          = lookupField (spreadFields
              (Json.obj [("name", Json.str "alpha"), ("id", Json.str "client")])) k)
    ∧ (processApi parseFix "uuid-2" "POST" "/api/posts" "pb"
        (processApi parseFix "uuid-1" "POST" "/api/posts" "pa" dataPosts {}).data
        {}).res.statusCode = 201
    ∧ (processApi parseFix "uuid-2" "POST" "/api/posts" "pb"
        (processApi parseFix "uuid-1" "POST" "/api/posts" "pa" dataPosts {}).data {}).res.body
        = (Json.obj (mergeFields (spreadFields (Json.obj [("name", Json.str "beta")]))
            [("id", Json.str "uuid-2")])).stringify
    ∧ (processApi parseFix "uuid-2" "POST" "/api/posts" "pb"
        (processApi parseFix "uuid-1" "POST" "/api/posts" "pa" dataPosts {}).data
        {}).data.findColl "posts"
        = some [Json.obj (mergeFields
            (spreadFields (Json.obj [("name", Json.str "alpha"), ("id", Json.str "client")]))
            [("id", Json.str "uuid-1")]),
                Json.obj (mergeFields (spreadFields (Json.obj [("name", Json.str "beta")]))
            [("id", Json.str "uuid-2")])]
    ∧ (Json.obj (mergeFields (spreadFields (Json.obj [("name", Json.str "beta")]))
          [("id", Json.str "uuid-2")])).get? "id"
        = some (Json.str "uuid-2")
    ∧ (Json.obj (mergeFields
          (spreadFields (Json.obj [("name", Json.str "alpha"), ("id", Json.str "client")]))
          [("id", Json.str "uuid-1")])).get? "id"
        ≠ (Json.obj (mergeFields (spreadFields (Json.obj [("name", Json.str "beta")]))
            [("id", Json.str "uuid-2")])).get? "id"
    ∧ (processApi parseFix "uuid-3" "GET" "/api/posts" ""
        (processApi parseFix "uuid-2" "POST" "/api/posts" "pb"
          (processApi parseFix "uuid-1" "POST" "/api/posts" "pa" dataPosts {}).data {}).data
        {}).res.statusCode = 200
    ∧ (processApi parseFix "uuid-3" "GET" "/api/posts" ""
        (processApi parseFix "uuid-2" "POST" "/api/posts" "pb"
          (processApi parseFix "uuid-1" "POST" "/api/posts" "pa" dataPosts {}).data {}).data
        {}).res.ended = true
    ∧ (processApi parseFix "uuid-3" "GET" "/api/posts" ""
        (processApi parseFix "uuid-2" "POST" "/api/posts" "pb"
          (processApi parseFix "uuid-1" "POST" "/api/posts" "pa" dataPosts {}).data {}).data
        {}).res.body
        = (Json.arr [Json.obj (mergeFields
            (spreadFields (Json.obj [("name", Json.str "alpha"), ("id", Json.str "client")]))
            [("id", Json.str "uuid-1")]),
                     Json.obj (mergeFields (spreadFields (Json.obj [("name", Json.str "beta")]))
            [("id", Json.str "uuid-2")])]).stringify) :=
  ⟨by decide, by decide, rfl, rfl, rfl, by decide,
   C5_post_fresh_id_appends_in_order parseFix "uuid-1" "uuid-2" "uuid-3" "/api/posts"
     "pa" "pb" "posts"
     (Json.obj [("name", Json.str "alpha"), ("id", Json.str "client")])
     (Json.obj [("name", Json.str "beta")]) dataPosts
     (by decide) (by decide) rfl rfl rfl (by decide)⟩

/-- C6: a PUT with a valid JSON body whose id segment matches an existing
item replaces that item with `{...resourceData[index], ...updateData}` — the
shallow merge of the parsed body over the existing item, body fields
winning, existing fields missing from the body surviving, and the `id`
field not protected (a body containing `id` changes the stored identity) —
and answers 200 with the merged item. -/
theorem C6_put_shallow_merge_unprotected_id (p : String → Option Json)
    (g url body name rid : String) (v : Json) (items : List Json) (data : Data) (i : Nat)
    (hparts : apiParts url = [name, rid]) (hrid : rid ≠ "")
    (hcoll : data.findColl name = some items) (hp : p body = some v)
    (hidx : items.findIdx? (fun item => jsStrictEqStr (item.get? "id") rid) = some i) :
    (processApi p g "PUT" url body data {}).res.statusCode = 200
    ∧ (processApi p g "PUT" url body data {}).res.ended = true
    ∧ (processApi p g "PUT" url body data {}).res.body
        = (Json.obj (mergeFields (spreadFields (items.getD i Json.null))
            (spreadFields v))).stringify
    ∧ (processApi p g "PUT" url body data {}).data.findColl name
        = some (items.set i (Json.obj (mergeFields (spreadFields (items.getD i Json.null))
            (spreadFields v))))
    ∧ (∀ k w, lookupField (spreadFields v) k = some w →
        (Json.obj (mergeFields (spreadFields (items.getD i Json.null))
          (spreadFields v))).get? k = some w)
    ∧ (∀ k, lookupField (spreadFields v) k = none →
        (Json.obj (mergeFields (spreadFields (items.getD i Json.null))
          (spreadFields v))).get? k
          = lookupField (spreadFields (items.getD i Json.null)) k) := by
  have hurl : ¬ (url = "") := by
    intro h
    subst h
    rw [show apiParts "" = [""] from rfl] at hparts
    simp at hparts
  have htr : truthyStr (some rid) = true := by
    simp [truthyStr, hrid]
  have hd : (data.setColl name (items.set i (Json.obj (mergeFields
        (spreadFields (items.getD i Json.null)) (spreadFields v))))).findColl name
      = some (items.set i (Json.obj (mergeFields
        (spreadFields (items.getD i Json.null)) (spreadFields v)))) :=
    findColl_setColl _ hcoll
  refine ⟨?_, ?_, ?_, ?_, ?_, ?_⟩
  · simp [processApi, hurl, hparts, htr, hcoll, hp, hidx, putEndCallback,
      Res.setHeader, Res.setStatus, Res.endWith, Res.endEmpty]
  · simp [processApi, hurl, hparts, htr, hcoll, hp, hidx, putEndCallback,
      Res.setHeader, Res.setStatus, Res.endWith, Res.endEmpty]
  · simp [processApi, hurl, hparts, htr, hcoll, hp, hidx, putEndCallback,
      Res.setHeader, Res.setStatus, Res.endWith, Res.endEmpty]
  · have hd' := hd
    simp only [List.getD, List.get?_eq_getElem?] at hd'
    simp [processApi, hurl, hparts, htr, hcoll, hp, hidx, putEndCallback, hd',
      Res.setHeader, Res.setStatus, Res.endWith, Res.endEmpty]
  · intro k w hw
    rw [show (Json.obj (mergeFields (spreadFields (items.getD i Json.null))
          (spreadFields v))).get? k
        = lookupField (mergeFields (spreadFields (items.getD i Json.null))
          (spreadFields v)) k from rfl]
    exact lookupField_mergeFields_override _ _ _ _ hw
  · intro k hk
    rw [show (Json.obj (mergeFields (spreadFields (items.getD i Json.null))
          (spreadFields v))).get? k
        = lookupField (mergeFields (spreadFields (items.getD i Json.null))
          (spreadFields v)) k from rfl]
    exact lookupField_mergeFields_keep _ _ _ hk

/-- C6 witnessed: PUT `/api/items/a` with body `pu` (`{id:"evil", age:30}`)
against the one-item collection whose item is `{id:"a", n:1}`: the stored
item becomes `{id:"evil", n:1, age:30}`. -/
theorem C6_put_shallow_merge_unprotected_id_witness :
    apiParts "/api/items/a" = ["items", "a"]
    ∧ ("a" : String) ≠ ""
    ∧ dataItems.findColl "items" = some [Json.obj [("id", Json.str "a"), ("n", Json.num 1)]]
    ∧ parseFix "pu" = some (Json.obj [("id", Json.str "evil"), ("age", Json.num 30)])
    ∧ List.findIdx? (fun item => jsStrictEqStr (item.get? "id") "a")
        [Json.obj [("id", Json.str "a"), ("n", Json.num 1)]] = some 0
    ∧ ((processApi parseFix "gid" "PUT" "/api/items/a" "pu" dataItems {}).res.statusCode = 200
    ∧ (processApi parseFix "gid" "PUT" "/api/items/a" "pu" dataItems {}).res.ended = true
    ∧ (processApi parseFix "gid" "PUT" "/api/items/a" "pu" dataItems {}).res.body
        = (Json.obj (mergeFields
            (spreadFields ([Json.obj [("id", Json.str "a"), ("n", Json.num 1)]].getD 0
              Json.null))
            (spreadFields (Json.obj [("id", Json.str "evil"), ("age", Json.num 30)])))).stringify
    ∧ (processApi parseFix "gid" "PUT" "/api/items/a" "pu" dataItems {}).data.findColl "items"
        = some ([Json.obj [("id", Json.str "a"), ("n", Json.num 1)]].set 0
            (Json.obj (mergeFields
              (spreadFields ([Json.obj [("id", Json.str "a"), ("n", Json.num 1)]].getD 0
                Json.null))
              (spreadFields (Json.obj [("id", Json.str "evil"), ("age", Json.num 30)])))))
    ∧ (∀ k w, lookupField (spreadFields (Json.obj [("id", Json.str "evil"),
          ("age", Json.num 30)])) k = some w →
        (Json.obj (mergeFields
          (spreadFields ([Json.obj [("id", Json.str "a"), ("n", Json.num 1)]].getD 0
            Json.null))
          (spreadFields (Json.obj [("id", Json.str "evil"), ("age", Json.num 30)])))).get? k
          = some w)
    ∧ (∀ k, lookupField (spreadFields (Json.obj [("id", Json.str "evil"),
          ("age", Json.num 30)])) k = none →
        (Json.obj (mergeFields
          (spreadFields ([Json.obj [("id", Json.str "a"), ("n", Json.num 1)]].getD 0
            Json.null))
          (spreadFields (Json.obj [("id", Json.str "evil"), ("age", Json.num 30)])))).get? k
          = lookupField
              (spreadFields ([Json.obj [("id", Json.str "a"), ("n", Json.num 1)]].getD 0
                Json.null)) k)) :=
  ⟨by decide, by decide, rfl, rfl, rfl,
   C6_put_shallow_merge_unprotected_id parseFix "gid" "/api/items/a" "pu" "items" "a"
     (Json.obj [("id", Json.str "evil"), ("age", Json.num 30)])
     [Json.obj [("id", Json.str "a"), ("n", Json.num 1)]] dataItems 0
     (by decide) (by decide) rfl rfl rfl⟩

/-- C8: DELETE on an existing collection answers 400
`{error:"Resource ID is required"}` without an id segment, 404
`{error:"Item not found"}` when the id matches nothing, and removes exactly
the matched item (`splice(index, 1)`, all other items keeping their
relative order) answering 204 with no body; deleting the only item leaves
GET without id returning the empty list and GET on that id returning 404. -/
theorem C8_delete_semantics (p : String → Option Json) (g url0 url1 name rid : String)
    (items : List Json) (data : Data)
    (hurl0 : url0 ≠ "") (h0 : apiParts url0 = [name])
    (h1 : apiParts url1 = [name, rid]) (hrid : rid ≠ "")
    (hcoll : data.findColl name = some items) :
    ((processApi p g "DELETE" url0 "" data {}).res.statusCode = 400
      ∧ (processApi p g "DELETE" url0 "" data {}).res.body
          = Json.stringify (Json.obj [("error", Json.str "Resource ID is required")])
      ∧ (processApi p g "DELETE" url0 "" data {}).data = data)
    ∧ (items.findIdx? (fun item => jsStrictEqStr (item.get? "id") rid) = none →
        (processApi p g "DELETE" url1 "" data {}).res.statusCode = 404
        ∧ (processApi p g "DELETE" url1 "" data {}).res.body
            = Json.stringify (Json.obj [("error", Json.str "Item not found")])
        ∧ (processApi p g "DELETE" url1 "" data {}).data = data)
    ∧ (∀ i, items.findIdx? (fun item => jsStrictEqStr (item.get? "id") rid) = some i →
        (processApi p g "DELETE" url1 "" data {}).res.statusCode = 204
        ∧ (processApi p g "DELETE" url1 "" data {}).res.body = ""
        ∧ (processApi p g "DELETE" url1 "" data {}).res.ended = true
        ∧ (processApi p g "DELETE" url1 "" data {}).data.findColl name
            = some (items.take i ++ items.drop (i + 1)))
    ∧ (∀ item, items = [item] →
        jsStrictEqStr (item.get? "id") rid = true →
        (processApi p g "GET" url0 ""
          (processApi p g "DELETE" url1 "" data {}).data {}).res.statusCode = 200
        ∧ (processApi p g "GET" url0 ""
            (processApi p g "DELETE" url1 "" data {}).data {}).res.body
            = (Json.arr []).stringify
        ∧ (processApi p g "GET" url1 ""
            (processApi p g "DELETE" url1 "" data {}).data {}).res.statusCode = 404
        ∧ (processApi p g "GET" url1 ""
            (processApi p g "DELETE" url1 "" data {}).data {}).res.body
            = Json.stringify (Json.obj [("error", Json.str "Item not found")])) := by
  have hurl1 : ¬ (url1 = "") := by
    intro h
    subst h
    rw [show apiParts "" = [""] from rfl] at h1
    simp at h1
  have hurl0' : ¬ (url0 = "") := hurl0
  have htr1 : truthyStr (some rid) = true := by
    simp [truthyStr, hrid]
  refine ⟨⟨?_, ?_, ?_⟩, ?_, ?_, ?_⟩
  · simp [processApi, hurl0', h0, hcoll, truthyStr,
      Res.setHeader, Res.setStatus, Res.endWith, Res.endEmpty]
  · simp [processApi, hurl0', h0, hcoll, truthyStr,
      Res.setHeader, Res.setStatus, Res.endWith, Res.endEmpty]
  · simp [processApi, hurl0', h0, hcoll, truthyStr,
      Res.setHeader, Res.setStatus, Res.endWith, Res.endEmpty]
  · intro hidx
    refine ⟨?_, ?_, ?_⟩ <;>
      simp [processApi, hurl1, h1, htr1, hcoll, hidx,
        Res.setHeader, Res.setStatus, Res.endWith, Res.endEmpty]
  · intro i hidx
    have hd : (data.setColl name (items.take i ++ items.drop (i + 1))).findColl name
        = some (items.take i ++ items.drop (i + 1)) := findColl_setColl _ hcoll
    refine ⟨?_, ?_, ?_, ?_⟩ <;>
      simp [processApi, hurl1, h1, htr1, hcoll, hidx, hd,
        Res.setHeader, Res.setStatus, Res.endWith, Res.endEmpty]
  · intro item hitems hpred
    subst hitems
    have hidx : List.findIdx? (fun it => jsStrictEqStr (it.get? "id") rid) [item]
        = some 0 := by
      simp [List.findIdx?_cons, hpred]
    have hd : (data.setColl name []).findColl name = some [] :=
      findColl_setColl [] hcoll
    refine ⟨?_, ?_, ?_, ?_⟩ <;>
      simp [processApi, hurl0', hurl1, h0, h1, htr1, hrid, hcoll, hidx, hd, truthyStr,
        Res.setHeader, Res.setStatus, Res.endWith, Res.endEmpty]

/-- C8 witnessed on the one-item `items` collection, id segment `a`. -/
theorem C8_delete_semantics_witness :
    ("/api/items" : String) ≠ ""
    ∧ apiParts "/api/items" = ["items"]
    ∧ apiParts "/api/items/a" = ["items", "a"]
    ∧ ("a" : String) ≠ ""
    ∧ dataItems.findColl "items" = some [Json.obj [("id", Json.str "a"), ("n", Json.num 1)]]
    ∧ (((processApi parseFix "gid" "DELETE" "/api/items" "" dataItems {}).res.statusCode = 400
      ∧ (processApi parseFix "gid" "DELETE" "/api/items" "" dataItems {}).res.body
          = Json.stringify (Json.obj [("error", Json.str "Resource ID is required")])
      ∧ (processApi parseFix "gid" "DELETE" "/api/items" "" dataItems {}).data = dataItems)
    ∧ (List.findIdx? (fun item => jsStrictEqStr (item.get? "id") "a")
          [Json.obj [("id", Json.str "a"), ("n", Json.num 1)]] = none →
        (processApi parseFix "gid" "DELETE" "/api/items/a" "" dataItems {}).res.statusCode = 404
        ∧ (processApi parseFix "gid" "DELETE" "/api/items/a" "" dataItems {}).res.body
            = Json.stringify (Json.obj [("error", Json.str "Item not found")])
        ∧ (processApi parseFix "gid" "DELETE" "/api/items/a" "" dataItems {}).data = dataItems)
    ∧ (∀ i, List.findIdx? (fun item => jsStrictEqStr (item.get? "id") "a")
          [Json.obj [("id", Json.str "a"), ("n", Json.num 1)]] = some i →
        (processApi parseFix "gid" "DELETE" "/api/items/a" "" dataItems {}).res.statusCode = 204
        ∧ (processApi parseFix "gid" "DELETE" "/api/items/a" "" dataItems {}).res.body = ""
        ∧ (processApi parseFix "gid" "DELETE" "/api/items/a" "" dataItems {}).res.ended = true
        ∧ (processApi parseFix "gid" "DELETE" "/api/items/a" "" dataItems {}).data.findColl
            "items"
            = some ([Json.obj [("id", Json.str "a"), ("n", Json.num 1)]].take i
                ++ [Json.obj [("id", Json.str "a"), ("n", Json.num 1)]].drop (i + 1)))
    ∧ (∀ item, [Json.obj [("id", Json.str "a"), ("n", Json.num 1)]] = [item] →
        jsStrictEqStr (item.get? "id") "a" = true →
        (processApi parseFix "gid" "GET" "/api/items" ""
          (processApi parseFix "gid" "DELETE" "/api/items/a" "" dataItems {}).data
          {}).res.statusCode = 200
        ∧ (processApi parseFix "gid" "GET" "/api/items" ""
            (processApi parseFix "gid" "DELETE" "/api/items/a" "" dataItems {}).data {}).res.body
            = (Json.arr []).stringify
        ∧ (processApi parseFix "gid" "GET" "/api/items/a" ""
            (processApi parseFix "gid" "DELETE" "/api/items/a" "" dataItems
              {}).data {}).res.statusCode = 404
        ∧ (processApi parseFix "gid" "GET" "/api/items/a" ""
            (processApi parseFix "gid" "DELETE" "/api/items/a" "" dataItems {}).data {}).res.body
            = Json.stringify (Json.obj [("error", Json.str "Item not found")]))) :=
  ⟨by decide, by decide, by decide, by decide, rfl,
   C8_delete_semantics parseFix "gid" "/api/items" "/api/items/a" "items" "a"
     [Json.obj [("id", Json.str "a"), ("n", Json.num 1)]] dataItems
     (by decide) (by decide) (by decide) (by decide) rfl⟩

/-- C9: resolving a directory produces one Directory Listing Entry per
direct child — name, href equal to the request path joined with the child
name, size from the child's stat — rendered through the templating
collaborator with status 200 and content type `text/html;charset=utf-8`. -/
theorem C9_directory_listing (fs : Fs) (dir requestUrl : String) (names : List String)
    (h : fs dir = some (.dir names)) :
    directoryEntries fs dir requestUrl
        = names.map (fun n =>
            { contentName := n, href := pathJoin requestUrl n
              size := fsStatSize fs (pathJoin dir n) })
    ∧ (directoryEntries fs dir requestUrl).length = names.length
    ∧ (processDirectory fs dir {} requestUrl).statusCode = 200
    ∧ (processDirectory fs dir {} requestUrl).ended = true
    ∧ (processDirectory fs dir {} requestUrl).header? "Content-Type"
        = some "text/html;charset=utf-8"
    ∧ (processDirectory fs dir {} requestUrl).body
        = ejsRenderTmpl (directoryEntries fs dir requestUrl) := by
  refine ⟨?_, ?_, ?_, ?_, ?_, ?_⟩ <;>
    simp [directoryEntries, fsReaddir, h, processDirectory,
      Res.setHeader, Res.endWith, Res.header?]

/-- C9 witnessed on `/cwd/docs` holding `a.txt` (3 bytes) and `b.txt`
(5 bytes), requested as `/docs`. -/
theorem C9_directory_listing_witness :
    fsDocs "/cwd/docs" = some (.dir ["a.txt", "b.txt"])
    ∧ (directoryEntries fsDocs "/cwd/docs" "/docs"
        = ["a.txt", "b.txt"].map (fun n =>
            { contentName := n, href := pathJoin "/docs" n
              size := fsStatSize fsDocs (pathJoin "/cwd/docs" n) })
    ∧ (directoryEntries fsDocs "/cwd/docs" "/docs").length = ["a.txt", "b.txt"].length
    ∧ (processDirectory fsDocs "/cwd/docs" {} "/docs").statusCode = 200
    ∧ (processDirectory fsDocs "/cwd/docs" {} "/docs").ended = true
    ∧ (processDirectory fsDocs "/cwd/docs" {} "/docs").header? "Content-Type"
        = some "text/html;charset=utf-8"
    ∧ (processDirectory fsDocs "/cwd/docs" {} "/docs").body
        = ejsRenderTmpl (directoryEntries fsDocs "/cwd/docs" "/docs")) :=
  ⟨by decide, C9_directory_listing fsDocs "/cwd/docs" "/docs" ["a.txt", "b.txt"] (by decide)⟩

/-- On a response whose headers are already on the wire (`ended`),
`processApi` leaves both the client-visible response and the store
unchanged: for a missing collection its status assignment and `end` are
no-ops, and for an existing collection its `setHeader('Content-Type', ...)`
throws `ERR_HTTP_HEADERS_SENT` before the method switch is reached. -/
theorem processApi_ended (p : String → Option Json) (g method url body : String)
    (data : Data) (res : Res) (hurl : ¬ (url = "")) (hres : res.ended = true) :
    (processApi p g method url body data res).res = res
    ∧ (processApi p g method url body data res).data = data := by
  simp only [processApi, hurl, if_false, if_neg hurl]
  cases hfc : data.findColl (((apiParts url).get? 0).getD "") with
  | none => simp [hfc, Res.setStatus, Res.endWith, hres]
  | some items => simp [hfc, hres]

/-- C1 as stated is false: for the OPTIONS preflight with
`Origin: http://example.com` to `/api/users` with CORS enabled, dispatch
does NOT stop after the CORS gate — `start()` ignores `processCors`'s early
return and still invokes `processApi` (which reads the Resource Store and
whose post-completion `setHeader` then fails uncaught on the already-ended
response). -/
theorem C1_counterexample_api_still_invoked :
    (handleRequest (fun _ => none) "g" (fun _ => none)
        (Server.make "/cwd" [] (some { cors? := some true })) "OPTIONS" "/api/users"
        (some "http://example.com") none "").apiInvoked = true
    ∧ (handleRequest (fun _ => none) "g" (fun _ => none)
        (Server.make "/cwd" [] (some { cors? := some true })) "OPTIONS" "/api/users"
        (some "http://example.com") none "").uncaught = true :=
  ⟨rfl, rfl⟩

/-- C1 amended: with CORS enabled, an OPTIONS request carrying a (truthy)
Origin header to any API path is answered with status 200, an empty body,
`Access-Control-Allow-Origin` echoing the Origin, and
`Access-Control-Allow-Methods: GET, POST, PUT, DELETE`, and the Resource
Store is returned unchanged (not mutated); dispatch, however, does not
stop: the API handler is still invoked on the already-ended response (its
late header write fails without altering the client-visible response). -/
theorem C1_preflight_response (p : String → Option Json) (g : String) (fs : Fs)
    (server : Server) (url origin : String) (inm? : Option String) (body : String)
    (hcors : server.cors = true) (horigin : origin ≠ "")
    (hurl : jsStartsWith url "/api" = true) :
    (handleRequest p g fs server "OPTIONS" url (some origin) inm? body).res.statusCode = 200
    ∧ (handleRequest p g fs server "OPTIONS" url (some origin) inm? body).res.body = ""
    ∧ (handleRequest p g fs server "OPTIONS" url (some origin) inm? body).res.ended = true
    ∧ (handleRequest p g fs server "OPTIONS" url (some origin) inm? body).res.header?
        "Access-Control-Allow-Origin" = some origin
    ∧ (handleRequest p g fs server "OPTIONS" url (some origin) inm? body).res.header?
        "Access-Control-Allow-Methods" = some "GET, POST, PUT, DELETE"
    ∧ (handleRequest p g fs server "OPTIONS" url (some origin) inm? body).data = server.data
    ∧ (handleRequest p g fs server "OPTIONS" url (some origin) inm? body).apiInvoked
        = true := by
  have hu : ¬ (url = "") := by
    intro h
    subst h
    rw [show jsStartsWith "" "/api" = false from rfl] at hurl
    exact absurd hurl (by decide)
  have hcors_eq : processCors (some origin) "OPTIONS" {} =
      { statusCode := 200,
        headers := [("Access-Control-Max-Age", "86400"),
                    ("Access-Control-Allow-Headers", "Content-Type"),
                    ("Access-Control-Allow-Methods", "GET, POST, PUT, DELETE"),
                    ("Access-Control-Allow-Origin", origin)],
        body := "", ended := true, pipeStarted := false } := by
    simp [processCors, horigin, Res.setHeader, Res.setStatus, Res.endWith, Res.endEmpty]
  have hpa := processApi_ended p g "OPTIONS" url body server.data
      (processCors (some origin) "OPTIONS" {}) hu (by rw [hcors_eq])
  rw [hcors_eq] at hpa
  refine ⟨?_, ?_, ?_, ?_, ?_, ?_, ?_⟩ <;>
    simp [handleRequest, hcors, hurl, hcors_eq, hpa.1, hpa.2, Res.header?]

/-- C1 amended, witnessed at OPTIONS `/api/users` with
`Origin: http://example.com` against the seed data. -/
theorem C1_preflight_response_witness :
    (Server.make "/cwd" [] (some { cors? := some true })).cors = true
    ∧ ("http://example.com" : String) ≠ ""
    ∧ jsStartsWith "/api/users" "/api" = true
    ∧ ((handleRequest parseFix "g" fsDocs (Server.make "/cwd" [] (some { cors? := some true }))
        "OPTIONS" "/api/users" (some "http://example.com") none "").res.statusCode = 200
    ∧ (handleRequest parseFix "g" fsDocs (Server.make "/cwd" [] (some { cors? := some true }))
        "OPTIONS" "/api/users" (some "http://example.com") none "").res.body = ""
    ∧ (handleRequest parseFix "g" fsDocs (Server.make "/cwd" [] (some { cors? := some true }))
        "OPTIONS" "/api/users" (some "http://example.com") none "").res.ended = true
    ∧ (handleRequest parseFix "g" fsDocs (Server.make "/cwd" [] (some { cors? := some true }))
        "OPTIONS" "/api/users" (some "http://example.com") none "").res.header?
        "Access-Control-Allow-Origin" = some "http://example.com"
    ∧ (handleRequest parseFix "g" fsDocs (Server.make "/cwd" [] (some { cors? := some true }))
        "OPTIONS" "/api/users" (some "http://example.com") none "").res.header?
        "Access-Control-Allow-Methods" = some "GET, POST, PUT, DELETE"
    ∧ (handleRequest parseFix "g" fsDocs (Server.make "/cwd" [] (some { cors? := some true }))
        "OPTIONS" "/api/users" (some "http://example.com") none "").data
        = (Server.make "/cwd" [] (some { cors? := some true })).data
    ∧ (handleRequest parseFix "g" fsDocs (Server.make "/cwd" [] (some { cors? := some true }))
        "OPTIONS" "/api/users" (some "http://example.com") none "").apiInvoked = true) :=
  ⟨rfl, by decide, by decide,
   C1_preflight_response parseFix "g" fsDocs (Server.make "/cwd" [] (some { cors? := some true }))
     "/api/users" "http://example.com" none "" rfl (by decide) (by decide)⟩

/-- C10 witnessed at id segment `1`: even the string form of a seeded
numeric id never matches under strict equality. -/
theorem C10_seeded_numeric_ids_never_match_witness :
    apiParts "/api/users/1" = ["users", "1"]
    ∧ ("1" : String) ≠ ""
    ∧ parseFix "pu" = some (Json.obj [("id", Json.str "evil"), ("age", Json.num 30)])
    ∧ (((processApi parseFix "gid" "GET" "/api/users/1" "" DEFAULT_DATA {}).res.statusCode = 404
      ∧ (processApi parseFix "gid" "GET" "/api/users/1" "" DEFAULT_DATA {}).res.body
          = Json.stringify (Json.obj [("error", Json.str "Item not found")])
      ∧ (processApi parseFix "gid" "GET" "/api/users/1" "" DEFAULT_DATA {}).data = DEFAULT_DATA)
    ∧ ((processApi parseFix "gid" "PUT" "/api/users/1" "pu" DEFAULT_DATA {}).res.statusCode = 404
      ∧ (processApi parseFix "gid" "PUT" "/api/users/1" "pu" DEFAULT_DATA {}).res.body
          = Json.stringify (Json.obj [("error", Json.str "Item not found")])
      ∧ (processApi parseFix "gid" "PUT" "/api/users/1" "pu" DEFAULT_DATA {}).data = DEFAULT_DATA)
    ∧ ((processApi parseFix "gid" "DELETE" "/api/users/1" "" DEFAULT_DATA {}).res.statusCode
          = 404
      ∧ (processApi parseFix "gid" "DELETE" "/api/users/1" "" DEFAULT_DATA {}).res.body
          = Json.stringify (Json.obj [("error", Json.str "Item not found")])
      ∧ (processApi parseFix "gid" "DELETE" "/api/users/1" "" DEFAULT_DATA {}).data
          = DEFAULT_DATA)) :=
  ⟨by decide, by decide, rfl,
   C10_seeded_numeric_ids_never_match parseFix "gid" "/api/users/1" "1" "pu"
     (Json.obj [("id", Json.str "evil"), ("age", Json.num 30)])
     (by decide) (by decide) rfl⟩
